import Mathlib

/-!
Shallow embedding of `src/perle_env.py` (class `EnvironmentProvisioner`).

Modelling conventions:
* `datetime.now()` and `os.urandom(4)` are nondeterministic inputs; each
  call site receives its value as an explicit parameter.
* Console output (`print`) is collected in order as a `List String`, one
  entry per `print` call, with embedded newline escapes kept literal.
* The log file written through `open(path, "w")` is modelled as a list of
  write chunks: `json.dump` of the details dict is one `Chunk.json`
  carrying the dict as a record, each `f.write` is one `Chunk.text`.
* The filesystem is an association list from path to chunk list; opening
  a path with mode "w" truncates, so writing replaces any prior binding.
* The Python function returns `None` on every path.  The return channel
  of the embedding is typed `Option (String × String)` (room for the
  identifier-and-initial-state pair the spec expects a submission to
  return); the code never populates it, so it is always `none`.
-/

/-- Wall-clock instant as read by `datetime.now()`; microseconds are not
carried because no claim inspects them. -/
structure DateTime where
  year : Nat
  month : Nat
  day : Nat
  hour : Nat
  minute : Nat
  second : Nat
deriving DecidableEq, Repr

/-- Decimal digit character of `n % 10`. -/
def digitChar (n : Nat) : Char :=
  Char.ofNat (48 + n % 10)

/-- Zero-padded two-digit decimal rendering; agrees with Python `%m`,
`%d`, `%H`, `%M`, `%S` strftime fields for values below 100. -/
def fmt2 (n : Nat) : String :=
  String.mk [digitChar (n / 10), digitChar n]

/-- Zero-padded four-digit decimal rendering; agrees with Python `%Y`
for years between 0 and 9999. -/
def fmt4 (n : Nat) : String :=
  String.mk [digitChar (n / 1000), digitChar (n / 100), digitChar (n / 10), digitChar n]

/-- Model of `datetime.now().strftime("%Y%m%d%H%M%S")` (line 36). -/
def DateTime.strftimeYmdHMS (d : DateTime) : String :=
  fmt4 d.year ++ fmt2 d.month ++ fmt2 d.day ++ fmt2 d.hour ++ fmt2 d.minute ++ fmt2 d.second

/-- Model of `str(datetime.now())`: the ISO-like rendering used for the
`start_time`, `end_time` and log-line timestamps. -/
def DateTime.pyStr (d : DateTime) : String :=
  toString d.year ++ "-" ++ fmt2 d.month ++ "-" ++ fmt2 d.day ++ " "
    ++ fmt2 d.hour ++ ":" ++ fmt2 d.minute ++ ":" ++ fmt2 d.second

/-- Lowercase hex digit character for `n < 16` ('0'-'9' then 'a'-'f'). -/
def hexDigit (n : Nat) : Char :=
  if n < 10 then Char.ofNat (48 + n) else Char.ofNat (87 + n)

/-- Model of `bytes.hex()`: two lowercase hex characters per byte,
in order. -/
def bytesHexChars : List Nat → List Char
  | [] => []
  | b :: bs => hexDigit (b / 16) :: hexDigit (b % 16) :: bytesHexChars bs

/-- Model of `os.urandom(4).hex()` applied to the byte list `bs`. -/
def bytesHex (bs : List Nat) : String :=
  String.mk (bytesHexChars bs)

/-- Embedding of `EnvironmentProvisioner._generate_env_id` (lines 35-37):
returns `f"{track}-{timestamp}-{os.urandom(4).hex()}"` where `timestamp`
is `datetime.now().strftime("%Y%m%d%H%M%S")`.  The current time and the
four random bytes are passed in explicitly. -/
def _generate_env_id (track : String) (now : DateTime) (rand : List Nat) : String :=
  track ++ "-" ++ now.strftimeYmdHMS ++ "-" ++ bytesHex rand

/-- One value of the `env_configs` dictionary (lines 11-33): the per-track
provisioning template. -/
structure Template where
  description : String
  infrastructure_template : String
  ci_cd_profile : String
  agent_policy : String
  resources : List String
deriving DecidableEq, Repr

/-- The `"demo"` entry of `env_configs` (lines 12-18). -/
def demoTemplate : Template :=
  { description := "Short-Term Demo Environment - ephemeral, cost-optimized, rapid."
    infrastructure_template := "aws_demo_template.json"
    ci_cd_profile := "demo_ci_cd_profile.json"
    agent_policy := "demo_agent_policy.json"
    resources := ["Lambda", "DynamoDB (on-demand)", "API Gateway"] }

/-- The `"customer"` entry of `env_configs` (lines 19-25). -/
def customerTemplate : Template :=
  { description := "Medium-Term Customer Environment - stable, scalable, persistent."
    infrastructure_template := "aws_customer_template.json"
    ci_cd_profile := "customer_ci_cd_profile.json"
    agent_policy := "customer_agent_policy.json"
    resources := ["EC2 (Auto Scaling)", "RDS", "EKS", "S3"] }

/-- The `"platform"` entry of `env_configs` (lines 26-32). -/
def platformTemplate : Template :=
  { description := "Long-Term Platform Environment - durable, highly available, secure."
    infrastructure_template := "aws_platform_template.json"
    ci_cd_profile := "platform_ci_cd_profile.json"
    agent_policy := "platform_agent_policy.json"
    resources := ["EC2 (Dedicated Instances)", "Aurora Global DB", "EKS (Multi-AZ)", "VPC Endpoints", "GuardDuty"] }

/-- The dictionary built in `EnvironmentProvisioner.__init__`
(lines 11-33), as an association list in insertion order. -/
def initEnvConfigs : List (String × Template) :=
  [("demo", demoTemplate), ("customer", customerTemplate), ("platform", platformTemplate)]

/-- The JSON blob assembled in `new_environment` (lines 66-77), in the
dict's key-insertion order.  `end_time` is `none` until the assignment
`provisioning_details["end_time"] = str(datetime.now())` adds the key. -/
structure ProvisioningDetails where
  env_id : String
  track_type : String
  description : String
  infrastructure_template : String
  ci_cd_profile : String
  agent_policy : String
  provisioned_resources_simulation : List String
  status : String
  start_time : String
  end_time : Option String
deriving DecidableEq, Repr

/-- One write to the opened log file: a `json.dump` of the details dict,
or an `f.write` of raw text. -/
inductive Chunk where
  | json (d : ProvisioningDetails)
  | text (s : String)
deriving DecidableEq, Repr

/-- Whether a chunk is a `json.dump` of the details record. -/
def Chunk.isJson : Chunk → Bool
  | .json _ => true
  | .text _ => false

/-- State of an `EnvironmentProvisioner` instance together with the
files it has written: `output_dir` and `env_configs` are the two
instance attributes set in `__init__`; `files` maps each log path to
the chunk sequence its last `open(..., "w")` session wrote. -/
structure ProvState where
  output_dir : String
  env_configs : List (String × Template)
  files : List (String × List Chunk)
deriving DecidableEq, Repr

/-- The `output_dir` default of `__init__` (line 7). -/
def defaultOutputDir : String := "env_provisioning_logs"

/-- Embedding of `EnvironmentProvisioner.__init__`: records the output
directory and builds the track catalog; no log file exists yet. -/
def mkProvisioner (output_dir : String) : ProvState :=
  { output_dir := output_dir, env_configs := initEnvConfigs, files := [] }

/-- A provisioner constructed with the default output directory, as
`main` does (line 129). -/
def initState : ProvState := mkProvisioner defaultOutputDir

/-- Writing a file with `open(path, "w")` truncates any previous
content, so the binding for `path` is replaced. -/
def setFile (files : List (String × List Chunk)) (path : String)
    (content : List Chunk) : List (String × List Chunk) :=
  (path, content) :: files.filter (fun pc => pc.1 ≠ path)

/-- Embedding of `EnvironmentProvisioner._simulate_aws_provisioning`
(lines 39-48): four `print` calls and nothing else; the provisioner
state is returned to make the absence of mutation provable. -/
def _simulate_aws_provisioning (s : ProvState) (env_id : String)
    (config : Template) : ProvState × List String :=
  (s,
   [ "  [SIMULATION] Initiating AWS CloudFormation/Terraform for " ++ env_id
       ++ " with template: " ++ config.infrastructure_template
   , "  [SIMULATION] Configuring CI/CD pipeline for " ++ env_id
       ++ " using profile: " ++ config.ci_cd_profile
   , "  [SIMULATION] Deploying AI agents configured with policy: " ++ config.agent_policy
   , "  [SIMULATION] Provisioning core resources: " ++ String.intercalate ", " config.resources ])

/-- Line 59, `env_id = name if name else self._generate_env_id(track)`:
Python truthiness makes both `None` and the empty string fall through to
the generated identifier. -/
def chosen_env_id (track : String) (name : Option String)
    (tGen : DateTime) (rand : List Nat) : String :=
  match name with
  | some n => if n = "" then _generate_env_id track tGen rand else n
  | none => _generate_env_id track tGen rand

/-- The error line printed on line 55 for an invalid track. -/
def invalidTrackMsg (s : ProvState) (track : String) : String :=
  "Error: Invalid track type '" ++ track ++ "'. Available tracks are: "
    ++ String.intercalate ", " (s.env_configs.map (fun pc => pc.1))

/-- Result of one `new_environment` call: the provisioner/filesystem
state afterwards, the console lines printed in order, and the Python
return value (always `None`, embedded as `none`; see the header note). -/
structure NewEnvResult where
  state : ProvState
  printed : List String
  ret : Option (String × String)
deriving DecidableEq, Repr

/-- Embedding of `EnvironmentProvisioner.new_environment` (lines 50-101).
The five `datetime.now()` readings are passed in call order: `tGen`
inside `_generate_env_id` (used only when the name is falsy), `tStart`
for `start_time`, `tLog1` for the "Starting provisioning" log line,
`tEnd` for `end_time`, `tLog2` for the "Provisioning completed" log
line; `rand` is the `os.urandom(4)` byte draw. -/
def new_environment (s : ProvState) (track : String) (name : Option String)
    (tGen : DateTime) (rand : List Nat)
    (tStart tLog1 tEnd tLog2 : DateTime) : NewEnvResult :=
  match List.lookup track s.env_configs with
  | none =>
      { state := s
        printed := [invalidTrackMsg s track]
        ret := none }
  | some env_config =>
      let env_id := chosen_env_id track name tGen rand
      let log_file_path := s.output_dir ++ "/" ++ env_id ++ ".log"
      let details1 : ProvisioningDetails :=
        { env_id := env_id
          track_type := track
          description := env_config.description
          infrastructure_template := env_config.infrastructure_template
          ci_cd_profile := env_config.ci_cd_profile
          agent_policy := env_config.agent_policy
          provisioned_resources_simulation := env_config.resources
          status := "IN_PROGRESS"
          start_time := tStart.pyStr
          end_time := none }
      let simOut := _simulate_aws_provisioning s env_id env_config
      let details2 : ProvisioningDetails :=
        { details1 with status := "COMPLETED", end_time := some tEnd.pyStr }
      let chunks : List Chunk :=
        [ Chunk.json details1
        , Chunk.text "\n\n--- Simulation Log ---\n"
        , Chunk.text ("[" ++ tLog1.pyStr ++ "] Starting provisioning for " ++ env_id ++ "\n")
        , Chunk.text ("[" ++ tLog2.pyStr ++ "] Provisioning completed for " ++ env_id ++ "\n")
        , Chunk.json details2 ]
      { state := { simOut.1 with files := setFile simOut.1.files log_file_path chunks }
        printed :=
          [ "\n--- Initiating Environment Provisioning for '" ++ track ++ "' track ---"
          , "Environment ID: " ++ env_id
          , "Description: " ++ env_config.description
          , "  [INFO] Writing provisioning details to " ++ log_file_path ]
          ++ simOut.2
          ++ [ "--- Environment '" ++ env_id ++ "' Provisioning Initiated (simulated) ---"
             , "Details logged to: " ++ log_file_path
             , "Next steps for a real system:\n"
                 ++ "  1. An Agent Orchestration Service (AOS) agent would pick up this request.\n"
                 ++ "  2. It would trigger the Infrastructure Orchestration Engine (IOE) to provision resources.\n"
                 ++ "  3. CI/CD pipelines would be configured via the PaaS.\n"
                 ++ "  4. Agent-specific configurations would be applied.\n" ]
        ret := none }

/-- The details record a result logged at `path`: the first chunk of the
file written there, when it is a `json.dump`. -/
def loggedDetails (r : NewEnvResult) (path : String) : Option ProvisioningDetails :=
  match List.lookup path r.state.files with
  | some (Chunk.json d :: _) => some d
  | _ => none

/-- One observable call on an `EnvironmentProvisioner` instance, for
stating invariants over arbitrary call sequences. -/
inductive Op where
  | newEnv (track : String) (name : Option String) (tGen : DateTime)
      (rand : List Nat) (tStart tLog1 tEnd tLog2 : DateTime)
  | simulate (env_id : String) (config : Template)
  | genId (track : String) (now : DateTime) (rand : List Nat)

/-- State effect of one call.  `_generate_env_id` reads the clock and
the entropy pool but neither reads nor writes provisioner state. -/
def applyOp (s : ProvState) : Op → ProvState
  | .newEnv track name tGen rand tStart tLog1 tEnd tLog2 =>
      (new_environment s track name tGen rand tStart tLog1 tEnd tLog2).state
  | .simulate env_id config => (_simulate_aws_provisioning s env_id config).1
  | .genId _ _ _ => s

/-- State after a sequence of calls, applied left to right. -/
def runOps (s : ProvState) : List Op → ProvState
  | [] => s
  | op :: ops => runOps (applyOp s op) ops

/-- A character is a lowercase hex digit. -/
def isHexChar (c : Char) : Prop :=
  c.isDigit = true ∨ ('a' ≤ c ∧ c ≤ 'f')

/-- The status field of the last `json.dump` in the file a result wrote
at `path`. -/
def loggedFinalStatus (r : NewEnvResult) (path : String) : Option String :=
  match List.lookup path r.state.files with
  | some chunks =>
      match chunks.getLast? with
      | some (Chunk.json d) => some d.status
      | _ => none
  | none => none

/-- The catalog lookup guarding `new_environment` (lines 54 and 58):
`track in self.env_configs` followed by `self.env_configs[track]`,
which is the spec's `resolve(track)`. -/
def resolve (s : ProvState) (track : String) : Option Template :=
  List.lookup track s.env_configs

/-- Concrete clock reading used by the closed witness and
counterexample statements. -/
def dtA : DateTime := ⟨2024, 1, 2, 3, 4, 5⟩

/-- A later clock reading for second invocations. -/
def dtB : DateTime := ⟨2024, 6, 7, 8, 9, 10⟩

/-- Concrete `os.urandom(4)` draw for witnesses. -/
def bsA : List Nat := [0, 17, 171, 255]

/-- A different entropy draw for second invocations. -/
def bsB : List Nat := [1, 2, 3, 4]

theorem digitChar_isDigit (k : Nat) : (digitChar k).isDigit = true := by
  have hm : k % 10 < 10 := Nat.mod_lt _ (by norm_num)
  unfold digitChar
  generalize k % 10 = m at hm ⊢
  interval_cases m <;> decide

theorem hexDigit_isHex (m : Nat) (hm : m < 16) : isHexChar (hexDigit m) := by
  unfold hexDigit isHexChar
  interval_cases m <;> decide

theorem bytesHexChars_length (bs : List Nat) :
    (bytesHexChars bs).length = 2 * bs.length := by
  induction bs with
  | nil => rfl
  | cons b bs ih => simp [bytesHexChars, ih]; omega

theorem mem_bytesHexChars (bs : List Nat) (c : Char) (h : c ∈ bytesHexChars bs) :
    ∃ b ∈ bs, c = hexDigit (b / 16) ∨ c = hexDigit (b % 16) := by
  induction bs with
  | nil => simp [bytesHexChars] at h
  | cons b bs ih =>
      simp only [bytesHexChars, List.mem_cons] at h
      rcases h with h | h | h
      · exact ⟨b, List.mem_cons_self _ _, Or.inl h⟩
      · exact ⟨b, List.mem_cons_self _ _, Or.inr h⟩
      · obtain ⟨b', hb', hc⟩ := ih h
        exact ⟨b', List.mem_cons_of_mem _ hb', hc⟩

theorem strftimeYmdHMS_length (d : DateTime) : d.strftimeYmdHMS.length = 14 := by
  simp [DateTime.strftimeYmdHMS, fmt4, fmt2, String.length_append, String.length]

theorem mem_fmt2 (n : Nat) (c : Char) (h : c ∈ (fmt2 n).data) :
    c = digitChar (n / 10) ∨ c = digitChar n := by
  simp only [fmt2, String.data, List.mem_cons, List.not_mem_nil, or_false] at h
  exact h

theorem mem_fmt4 (n : Nat) (c : Char) (h : c ∈ (fmt4 n).data) :
    c = digitChar (n / 1000) ∨ c = digitChar (n / 100)
      ∨ c = digitChar (n / 10) ∨ c = digitChar n := by
  simp only [fmt4, String.data, List.mem_cons, List.not_mem_nil, or_false] at h
  exact h

theorem strftimeYmdHMS_digits (d : DateTime) (c : Char)
    (h : c ∈ d.strftimeYmdHMS.data) : c.isDigit = true := by
  simp only [DateTime.strftimeYmdHMS, String.data_append, List.mem_append] at h
  rcases h with ((((h | h) | h) | h) | h) | h
  · rcases mem_fmt4 _ _ h with h | h | h | h <;> (subst h; exact digitChar_isDigit _)
  all_goals rcases mem_fmt2 _ _ h with h | h <;> (subst h; exact digitChar_isDigit _)

theorem bytesHex_length (bs : List Nat) : (bytesHex bs).length = 2 * bs.length := by
  simp [bytesHex, String.length, bytesHexChars_length]

theorem bytesHex_hex (bs : List Nat) (hb : ∀ b ∈ bs, b ≤ 255) (c : Char)
    (h : c ∈ (bytesHex bs).data) : isHexChar c := by
  simp only [bytesHex, String.data] at h
  obtain ⟨b, hbmem, hc⟩ := mem_bytesHexChars bs c h
  have hb' : b ≤ 255 := hb b hbmem
  rcases hc with hc | hc <;> subst hc
  · exact hexDigit_isHex _ (by omega)
  · exact hexDigit_isHex _ (by omega)

theorem new_environment_env_configs (s : ProvState) (track : String)
    (name : Option String) (tGen : DateTime) (rand : List Nat)
    (tStart tLog1 tEnd tLog2 : DateTime) :
    (new_environment s track name tGen rand tStart tLog1 tEnd tLog2).state.env_configs
      = s.env_configs := by
  unfold new_environment
  cases List.lookup track s.env_configs <;> simp [_simulate_aws_provisioning]

theorem new_environment_output_dir (s : ProvState) (track : String)
    (name : Option String) (tGen : DateTime) (rand : List Nat)
    (tStart tLog1 tEnd tLog2 : DateTime) :
    (new_environment s track name tGen rand tStart tLog1 tEnd tLog2).state.output_dir
      = s.output_dir := by
  unfold new_environment
  cases List.lookup track s.env_configs <;> simp [_simulate_aws_provisioning]

theorem runOps_env_configs (ops : List Op) (s : ProvState) :
    (runOps s ops).env_configs = s.env_configs := by
  induction ops generalizing s with
  | nil => rfl
  | cons op ops ih =>
      rw [runOps, ih]
      cases op with
      | newEnv track name tGen rand tStart tLog1 tEnd tLog2 =>
          exact new_environment_env_configs _ _ _ _ _ _ _ _ _
      | simulate env_id config => rfl
      | genId track now rand => rfl

/-- C3: for every track value not in the catalog, `new_environment`
rejects the submission: the provisioner state (in particular the file
map: no log file) is unchanged, the only output is the invalid-track
error line, and the call returns `None`. -/
theorem C3_unknown_track_rejected (s : ProvState) (track : String)
    (name : Option String) (tGen : DateTime) (rand : List Nat)
    (tStart tLog1 tEnd tLog2 : DateTime) (h : resolve s track = none) :
    (new_environment s track name tGen rand tStart tLog1 tEnd tLog2).state = s
    ∧ (new_environment s track name tGen rand tStart tLog1 tEnd tLog2).printed
        = [invalidTrackMsg s track]
    ∧ (new_environment s track name tGen rand tStart tLog1 tEnd tLog2).ret = none := by
  unfold resolve at h
  unfold new_environment
  rw [h]
  exact ⟨rfl, rfl, rfl⟩

theorem C3_unknown_track_rejected_witness :
    resolve initState "bogus" = none
    ∧ ((new_environment initState "bogus" none dtA bsA dtA dtA dtA dtA).state = initState
      ∧ (new_environment initState "bogus" none dtA bsA dtA dtA dtA dtA).printed
          = [invalidTrackMsg initState "bogus"]
      ∧ (new_environment initState "bogus" none dtA bsA dtA dtA dtA dtA).ret = none) :=
  ⟨by decide, C3_unknown_track_rejected initState "bogus" none dtA bsA dtA dtA dtA dtA (by decide)⟩

/-- C8: `_simulate_aws_provisioning` performs no state change at all:
for any provisioner state, environment id and track configuration it
returns the state unchanged (so the catalog and the file map are
untouched) and produces exactly its four console lines. -/
theorem C8_simulation_is_console_only (s : ProvState) (env_id : String)
    (config : Template) :
    (_simulate_aws_provisioning s env_id config).1 = s
    ∧ (_simulate_aws_provisioning s env_id config).1.env_configs = s.env_configs
    ∧ (_simulate_aws_provisioning s env_id config).1.files = s.files
    ∧ (_simulate_aws_provisioning s env_id config).2
        = [ "  [SIMULATION] Initiating AWS CloudFormation/Terraform for " ++ env_id
              ++ " with template: " ++ config.infrastructure_template
          , "  [SIMULATION] Configuring CI/CD pipeline for " ++ env_id
              ++ " using profile: " ++ config.ci_cd_profile
          , "  [SIMULATION] Deploying AI agents configured with policy: " ++ config.agent_policy
          , "  [SIMULATION] Provisioning core resources: "
              ++ String.intercalate ", " config.resources ] :=
  ⟨rfl, rfl, rfl, rfl⟩

/-- C9: the track catalog is an invariant of every operation: after any
sequence of `new_environment`, `_simulate_aws_provisioning` and
`_generate_env_id` calls with any arguments, `env_configs` equals what
it was before, and starting from a freshly constructed provisioner it
still equals the three-track mapping built in `__init__`. -/
theorem C9_catalog_invariant (ops : List Op) (s : ProvState) :
    (runOps s ops).env_configs = s.env_configs
    ∧ (runOps initState ops).env_configs = initEnvConfigs :=
  ⟨runOps_env_configs ops s, by rw [runOps_env_configs]; rfl⟩

theorem _generate_env_id_length (track : String) (d : DateTime) (bs : List Nat) :
    (_generate_env_id track d bs).length = track.length + 16 + 2 * bs.length := by
  have h1 : ("-" : String).length = 1 := rfl
  simp only [_generate_env_id, String.length_append, strftimeYmdHMS_length, bytesHex_length, h1]

/-- C10: submitting with the empty string as explicit name behaves
exactly like submitting with no name: the whole call result coincides
with the no-name call, the chosen identifier is the generated
`{track}-{timestamp}-{random-suffix}` one, and that identifier is never
the empty string. -/
theorem C10_empty_name_generates_id (s : ProvState) (track : String)
    (tGen : DateTime) (rand : List Nat) (tStart tLog1 tEnd tLog2 : DateTime) :
    new_environment s track (some "") tGen rand tStart tLog1 tEnd tLog2
      = new_environment s track none tGen rand tStart tLog1 tEnd tLog2
    ∧ chosen_env_id track (some "") tGen rand = _generate_env_id track tGen rand
    ∧ chosen_env_id track (some "") tGen rand ≠ "" := by
  refine ⟨rfl, rfl, ?_⟩
  intro h
  have hlen : (_generate_env_id track tGen rand).length = ("" : String).length :=
    congrArg String.length h
  rw [_generate_env_id_length] at hlen
  have h0 : ("" : String).length = 0 := rfl
  omega

/-- C4: when no name is supplied, the generated identifier has the form
`{track}-{timestamp}-{random-suffix}`: the track name, a hyphen, a
14-character all-digit timestamp, a hyphen, and an 8-character lowercase
hex suffix, for any realistic clock reading and any 4-byte random
draw. -/
theorem C4_generated_id_format (track : String) (d : DateTime) (rand : List Nat)
    (_hy1 : 1000 ≤ d.year) (_hy2 : d.year ≤ 9999) (_hmo : d.month ≤ 99) (_hda : d.day ≤ 99)
    (_hho : d.hour ≤ 99) (_hmi : d.minute ≤ 99) (_hse : d.second ≤ 99)
    (hlen : rand.length = 4) (hbytes : ∀ b ∈ rand, b ≤ 255) :
    ∃ ts hx, _generate_env_id track d rand = track ++ "-" ++ ts ++ "-" ++ hx
      ∧ ts.length = 14 ∧ (∀ c ∈ ts.data, c.isDigit = true)
      ∧ hx.length = 8 ∧ (∀ c ∈ hx.data, isHexChar c) := by
  refine ⟨d.strftimeYmdHMS, bytesHex rand, rfl, strftimeYmdHMS_length d,
    fun c hc => strftimeYmdHMS_digits d c hc, ?_, fun c hc => bytesHex_hex rand hbytes c hc⟩
  rw [bytesHex_length, hlen]

theorem C4_generated_id_format_witness :
    (1000 ≤ dtA.year ∧ dtA.year ≤ 9999 ∧ dtA.month ≤ 99 ∧ dtA.day ≤ 99 ∧ dtA.hour ≤ 99
      ∧ dtA.minute ≤ 99 ∧ dtA.second ≤ 99 ∧ bsA.length = 4 ∧ ∀ b ∈ bsA, b ≤ 255)
    ∧ (∃ ts hx, _generate_env_id "demo" dtA bsA = "demo" ++ "-" ++ ts ++ "-" ++ hx
        ∧ ts.length = 14 ∧ (∀ c ∈ ts.data, c.isDigit = true)
        ∧ hx.length = 8 ∧ (∀ c ∈ hx.data, isHexChar c)) :=
  ⟨by decide, C4_generated_id_format "demo" dtA bsA (by decide) (by decide) (by decide)
    (by decide) (by decide) (by decide) (by decide) (by decide) (by decide)⟩

/-- C5: with a valid track and an explicit non-empty name, that name is
used verbatim as the environment identifier: the details record written
to `{output_dir}/{name}.log` carries it as `env_id`, and the console
announces it. -/
theorem C5_explicit_name_used (s : ProvState) (track : String) (cfg : Template)
    (n : String) (tGen : DateTime) (rand : List Nat) (tStart tLog1 tEnd tLog2 : DateTime)
    (hcfg : resolve s track = some cfg) (hn : n ≠ "") :
    ∃ d, loggedDetails (new_environment s track (some n) tGen rand tStart tLog1 tEnd tLog2)
          (s.output_dir ++ "/" ++ n ++ ".log") = some d
      ∧ d.env_id = n ∧ d.track_type = track
      ∧ ("Environment ID: " ++ n)
          ∈ (new_environment s track (some n) tGen rand tStart tLog1 tEnd tLog2).printed := by
  unfold resolve at hcfg
  refine ⟨⟨n, track, cfg.description, cfg.infrastructure_template, cfg.ci_cd_profile,
    cfg.agent_policy, cfg.resources, "IN_PROGRESS", tStart.pyStr, none⟩, ?_, rfl, rfl, ?_⟩
  · simp [loggedDetails, new_environment, hcfg, chosen_env_id, hn, setFile,
      _simulate_aws_provisioning, List.lookup]
  · simp [new_environment, hcfg, chosen_env_id, hn, _simulate_aws_provisioning]

theorem C5_explicit_name_used_witness :
    (resolve initState "demo" = some demoTemplate ∧ "demo-1" ≠ "")
    ∧ (∃ d, loggedDetails (new_environment initState "demo" (some "demo-1") dtA bsA dtA dtA dtA dtA)
          (initState.output_dir ++ "/" ++ "demo-1" ++ ".log") = some d
        ∧ d.env_id = "demo-1" ∧ d.track_type = "demo"
        ∧ ("Environment ID: " ++ "demo-1")
            ∈ (new_environment initState "demo" (some "demo-1") dtA bsA dtA dtA dtA dtA).printed) :=
  ⟨⟨by decide, by decide⟩,
    C5_explicit_name_used initState "demo" demoTemplate "demo-1" dtA bsA dtA dtA dtA dtA
      (by decide) (by decide)⟩

/-- C6: resolving each of the three tracks yields a template with a
non-empty resource list, and resolution is stable: no operation on the
provisioner changes what any track resolves to. -/
theorem C6_resolve_nonempty_and_stable :
    (∃ t, resolve initState "demo" = some t ∧ t.resources ≠ [])
    ∧ (∃ t, resolve initState "customer" = some t ∧ t.resources ≠ [])
    ∧ (∃ t, resolve initState "platform" = some t ∧ t.resources ≠ [])
    ∧ (∀ (s : ProvState) (op : Op) (track : String),
        resolve (applyOp s op) track = resolve s track) := by
  refine ⟨⟨demoTemplate, by decide, by decide⟩, ⟨customerTemplate, by decide, by decide⟩,
    ⟨platformTemplate, by decide, by decide⟩, ?_⟩
  intro s op track
  unfold resolve
  cases op with
  | newEnv tr nm tGen rand tStart tLog1 tEnd tLog2 =>
      show List.lookup track
          (new_environment s tr nm tGen rand tStart tLog1 tEnd tLog2).state.env_configs
        = List.lookup track s.env_configs
      rw [new_environment_env_configs]
  | simulate env_id config => rfl
  | genId tr now rand => rfl

/-- C7: for every submission with a valid track, the details blob is
dumped into the log file exactly twice: the file's chunk sequence is a
`json` chunk with status IN_PROGRESS and no `end_time`, then only text
chunks, then a final `json` chunk which is the same record updated to
status COMPLETED with `end_time` set. -/
theorem C7_log_written_twice (s : ProvState) (track : String) (cfg : Template)
    (name : Option String) (tGen : DateTime) (rand : List Nat)
    (tStart tLog1 tEnd tLog2 : DateTime) (hcfg : resolve s track = some cfg) :
    ∃ d1 mid d2,
      List.lookup (s.output_dir ++ "/" ++ chosen_env_id track name tGen rand ++ ".log")
        (new_environment s track name tGen rand tStart tLog1 tEnd tLog2).state.files
        = some (Chunk.json d1 :: (mid ++ [Chunk.json d2]))
      ∧ (∀ ch ∈ mid, ch.isJson = false)
      ∧ d1.status = "IN_PROGRESS" ∧ d1.end_time = none
      ∧ d2 = { d1 with status := "COMPLETED", end_time := some tEnd.pyStr } := by
  unfold resolve at hcfg
  refine ⟨⟨chosen_env_id track name tGen rand, track, cfg.description,
      cfg.infrastructure_template, cfg.ci_cd_profile, cfg.agent_policy, cfg.resources,
      "IN_PROGRESS", tStart.pyStr, none⟩,
    [ Chunk.text "\n\n--- Simulation Log ---\n"
    , Chunk.text ("[" ++ tLog1.pyStr ++ "] Starting provisioning for "
        ++ chosen_env_id track name tGen rand ++ "\n")
    , Chunk.text ("[" ++ tLog2.pyStr ++ "] Provisioning completed for "
        ++ chosen_env_id track name tGen rand ++ "\n") ],
    ⟨chosen_env_id track name tGen rand, track, cfg.description,
      cfg.infrastructure_template, cfg.ci_cd_profile, cfg.agent_policy, cfg.resources,
      "COMPLETED", tStart.pyStr, some tEnd.pyStr⟩, ?_, ?_, rfl, rfl, rfl⟩
  · simp [new_environment, hcfg, setFile, _simulate_aws_provisioning, List.lookup]
  · intro ch hch
    simp only [List.mem_cons, List.not_mem_nil, or_false] at hch
    rcases hch with h | h | h <;> (subst h; rfl)

theorem C7_log_written_twice_witness :
    resolve initState "demo" = some demoTemplate
    ∧ (∃ d1 mid d2,
        List.lookup (initState.output_dir ++ "/" ++ chosen_env_id "demo" (some "demo-1") dtA bsA ++ ".log")
          (new_environment initState "demo" (some "demo-1") dtA bsA dtA dtA dtB dtB).state.files
          = some (Chunk.json d1 :: (mid ++ [Chunk.json d2]))
        ∧ (∀ ch ∈ mid, ch.isJson = false)
        ∧ d1.status = "IN_PROGRESS" ∧ d1.end_time = none
        ∧ d2 = { d1 with status := "COMPLETED", end_time := some dtB.pyStr }) :=
  ⟨by decide,
    C7_log_written_twice initState "demo" demoTemplate (some "demo-1") dtA bsA dtA dtA dtB dtB
      (by decide)⟩

/-- C1 counterexample: two sequential `new_environment` submissions,
both with track "demo" and name "demo-1", produce the same identifier
"demo-1"; the second one does not fail — it completes, writing a
COMPLETED record over the first submission's log file and returning
`None` rather than any DuplicateIdentifier error. -/
theorem C1_duplicate_name_counterexample :
    (loggedDetails (new_environment initState "demo" (some "demo-1") dtA bsA dtA dtA dtA dtA)
        "env_provisioning_logs/demo-1.log").map ProvisioningDetails.env_id = some "demo-1"
    ∧ (loggedDetails (new_environment
          (new_environment initState "demo" (some "demo-1") dtA bsA dtA dtA dtA dtA).state
          "demo" (some "demo-1") dtB bsB dtB dtB dtB dtB)
        "env_provisioning_logs/demo-1.log").map ProvisioningDetails.env_id = some "demo-1"
    ∧ loggedFinalStatus (new_environment
          (new_environment initState "demo" (some "demo-1") dtA bsA dtA dtA dtA dtA).state
          "demo" (some "demo-1") dtB bsB dtB dtB dtB dtB)
        "env_provisioning_logs/demo-1.log" = some "COMPLETED"
    ∧ (new_environment
          (new_environment initState "demo" (some "demo-1") dtA bsA dtA dtA dtA dtA).state
          "demo" (some "demo-1") dtB bsB dtB dtB dtB dtB).ret = none := by
  decide

/-- C1 amended: `new_environment` performs no collision check and has no
DuplicateIdentifier failure: with any valid track and any non-empty
caller-supplied name — in particular a name already used by an earlier
submission recorded in `s.files` — the name is used verbatim as the
identifier, the call completes with a COMPLETED record at that name's
log path (silently replacing any previous file there), and returns
`None`. -/
theorem C1_no_duplicate_check (s : ProvState) (track : String) (cfg : Template)
    (n : String) (tGen : DateTime) (rand : List Nat) (tStart tLog1 tEnd tLog2 : DateTime)
    (hcfg : resolve s track = some cfg) (hn : n ≠ "") :
    (loggedDetails (new_environment s track (some n) tGen rand tStart tLog1 tEnd tLog2)
        (s.output_dir ++ "/" ++ n ++ ".log")).map ProvisioningDetails.env_id = some n
    ∧ loggedFinalStatus (new_environment s track (some n) tGen rand tStart tLog1 tEnd tLog2)
        (s.output_dir ++ "/" ++ n ++ ".log") = some "COMPLETED"
    ∧ (new_environment s track (some n) tGen rand tStart tLog1 tEnd tLog2).ret = none := by
  unfold resolve at hcfg
  refine ⟨?_, ?_, ?_⟩ <;>
    simp [loggedDetails, loggedFinalStatus, new_environment, hcfg, chosen_env_id, hn,
      setFile, _simulate_aws_provisioning, List.lookup]

theorem C1_no_duplicate_check_witness :
    (resolve initState "demo" = some demoTemplate ∧ "demo-1" ≠ "")
    ∧ ((loggedDetails (new_environment initState "demo" (some "demo-1") dtA bsA dtA dtA dtA dtA)
          (initState.output_dir ++ "/" ++ "demo-1" ++ ".log")).map ProvisioningDetails.env_id
            = some "demo-1"
      ∧ loggedFinalStatus (new_environment initState "demo" (some "demo-1") dtA bsA dtA dtA dtA dtA)
          (initState.output_dir ++ "/" ++ "demo-1" ++ ".log") = some "COMPLETED"
      ∧ (new_environment initState "demo" (some "demo-1") dtA bsA dtA dtA dtA dtA).ret = none) :=
  ⟨⟨by decide, by decide⟩,
    C1_no_duplicate_check initState "demo" demoTemplate "demo-1" dtA bsA dtA dtA dtA dtA
      (by decide) (by decide)⟩

/-- C2 counterexample: a successful submission (valid track "demo",
name "demo-1", which demonstrably takes the success path: it announces
the identifier on the console) returns `None` to the caller — not the
request identifier and initial state the claim asserts. -/
theorem C2_returns_nothing_counterexample :
    (new_environment initState "demo" (some "demo-1") dtA bsA dtA dtA dtA dtA).ret = none
    ∧ "Environment ID: demo-1"
        ∈ (new_environment initState "demo" (some "demo-1") dtA bsA dtA dtA dtA dtA).printed := by
  decide

/-- C2 amended: for every submission with a valid track,
`new_environment` returns `None`; the identifier is communicated only
through the console (the "Environment ID" line) and the log file, never
as a return value. -/
theorem C2_submission_returns_none (s : ProvState) (track : String) (cfg : Template)
    (name : Option String) (tGen : DateTime) (rand : List Nat)
    (tStart tLog1 tEnd tLog2 : DateTime) (hcfg : resolve s track = some cfg) :
    (new_environment s track name tGen rand tStart tLog1 tEnd tLog2).ret = none
    ∧ ("Environment ID: " ++ chosen_env_id track name tGen rand)
        ∈ (new_environment s track name tGen rand tStart tLog1 tEnd tLog2).printed := by
  unfold resolve at hcfg
  constructor
  · simp [new_environment, hcfg]
  · simp [new_environment, hcfg, _simulate_aws_provisioning]

theorem C2_submission_returns_none_witness :
    resolve initState "customer" = some customerTemplate
    ∧ ((new_environment initState "customer" none dtA bsA dtA dtA dtA dtA).ret = none
      ∧ ("Environment ID: " ++ chosen_env_id "customer" none dtA bsA)
          ∈ (new_environment initState "customer" none dtA bsA dtA dtA dtA dtA).printed) :=
  ⟨by decide,
    C2_submission_returns_none initState "customer" customerTemplate none dtA bsA dtA dtA dtA dtA
      (by decide)⟩
